import Mathlib

/-!
# Verification of the recipe manager's unit-normalization and cost pipeline

Shallow embedding of the repository's core services
(`services/cost.py`, `services/matching.py`, `services/parsing.py`,
`services/shopping.py`) and their constant tables
(`constants/units.py`, `constants/ingredients.py`).

Modelling conventions:
* Python floats are modelled as exact rationals (`ℚ`); decimal literals in the
  source (e.g. `453.592`) become the exact rational of the written decimal.
* Python `round(x, n)` is modelled as rounding to the nearest multiple of
  `10^(-n)` (`pyRound`); decimal ties are taken half-up, while CPython rounds
  the underlying binary float to even.  No statement below depends on a tie.
* Python `None` becomes `Option.none`; truthiness of optional numbers/strings
  (`if not x`, `x or d`) is modelled by `truthyQ`/`truthyS`/`pyOrQ`/`pyOrS`.
* Python exceptions are modelled with `Except PyErr`; an expression that can
  raise returns `.error e`, and `try/except` blocks are explicit catches.
* Database/ORM access in `generate_shopping_list` is abstracted to a read-only
  snapshot passed as plain lists (recipes, pantry ids, use-up ids).
-/

set_option maxRecDepth 8000

unseal Rat.mul Rat.inv Rat.add Rat.sub Rat.ofScientific

/-- Python exception kinds that the embedded code can raise. -/
inductive PyErr where
  | valueError : PyErr
  | zeroDivision : PyErr
deriving DecidableEq, Repr

deriving instance DecidableEq for Except

/-- Python `round(x, n)`: round to the nearest multiple of `10^(-n)`. -/
def pyRound (n : ℕ) (x : ℚ) : ℚ := (round (x * 10 ^ n) : ℤ) / 10 ^ n

/-- Python `str.upper()` (all tokens involved are ASCII). -/
def strUpper (s : String) : String := ⟨s.data.map Char.toUpper⟩

/-- Python `str.lower()` (all tokens involved are ASCII). -/
def strLower (s : String) : String := ⟨s.data.map Char.toLower⟩

/-- Truthiness of an optional number: `None` and `0` are falsy. -/
def truthyQ : Option ℚ → Bool
  | none => false
  | some x => x ≠ 0

/-- Truthiness of an optional string: `None` and `""` are falsy. -/
def truthyS : Option String → Bool
  | none => false
  | some s => s ≠ ""

/-- Python `o or d` for an optional number. -/
def pyOrQ (o : Option ℚ) (d : ℚ) : ℚ := if truthyQ o then o.getD d else d

/-- Python `o or d` for an optional string. -/
def pyOrS (o : Option String) (d : String) : String := if truthyS o then o.getD d else d

/-! ## Constant tables (`constants/units.py`, `constants/ingredients.py`) -/

/-- Table `VOLUME_TO_ML` from `constants/units.py`. -/
def VOLUME_TO_ML : List (String × ℚ) :=
  [("ML", 1), ("L", 1000), ("CUP", 236588/1000), ("TBSP", 14787/1000), ("TSP", 4929/1000)]

/-- Table `WEIGHT_TO_G` from `constants/units.py`. -/
def WEIGHT_TO_G : List (String × ℚ) :=
  [("G", 1), ("KG", 1000), ("OZ", 283495/10000), ("LB", 453592/1000)]

/-- Table `WEIGHT_UNITS` from `constants/units.py`. -/
def WEIGHT_UNITS : List String := ["G", "KG", "OZ", "LB"]

/-- Table `VOLUME_UNITS` from `constants/units.py`. -/
def VOLUME_UNITS : List String := ["ML", "L", "CUP", "TBSP", "TSP"]

/-- Table `UNIT_CONVERSIONS` from `constants/units.py`: unit ↦ (base unit, factor). -/
def UNIT_CONVERSIONS : List (String × String × ℚ) :=
  [("CUP", ("ML", 236588/1000)), ("TBSP", ("ML", 14787/1000)), ("TSP", ("ML", 4929/1000)),
   ("L", ("ML", 1000)), ("ML", ("ML", 1)),
   ("LB", ("G", 453592/1000)), ("OZ", ("G", 283495/10000)), ("KG", ("G", 1000)), ("G", ("G", 1))]

/-- Table `AVERAGE_WEIGHTS` from `constants/ingredients.py`, in dict insertion order. -/
def AVERAGE_WEIGHTS : List (String × ℚ) :=
  [("TOMATO", 150), ("ONION", 225), ("RED ONION", 225), ("YELLOW ONION", 225),
   ("WHITE ONION", 225), ("GREEN ONION", 30), ("SCALLION", 30), ("CARROT", 70),
   ("CELERY", 45), ("POTATO", 225), ("RUSSET POTATO", 225), ("YELLOW POTATO", 170),
   ("RED POTATO", 170), ("SWEET POTATO", 200), ("BELL PEPPER", 150), ("RED PEPPER", 150),
   ("YELLOW PEPPER", 150), ("GREEN PEPPER", 150), ("JALAPENO", 15), ("CUCUMBER", 300),
   ("ZUCCHINI", 200), ("MUSHROOM", 18), ("GARLIC", 5), ("GINGER", 30),
   ("BROCCOLI", 600), ("CAULIFLOWER", 900), ("CABBAGE", 900), ("LETTUCE", 300),
   ("ROMAINE", 300), ("SPINACH", 30), ("KALE", 30), ("AVOCADO", 200), ("CORN", 200),
   ("LEMON", 85), ("LIME", 65), ("ORANGE", 180), ("APPLE", 180), ("BANANA", 120),
   ("EGG", 50), ("CHICKEN BREAST", 225), ("CHICKEN THIGH", 115), ("BACON", 30),
   ("SAUSAGE", 100), ("BUTTER", 14), ("BREAD", 30), ("TORTILLA", 45), ("BUN", 60)]

/-! ## Data model -/

/-- The `Ingredient` catalog row (fields used by the core services). -/
structure Ingredient where
  id : Nat := 0
  name : String := ""
  category : String := ""
  cost_formula : Option String := none
  base_unit : Option String := none
  cost : ℚ := 0
  min_purchase : Option ℚ := none
  piece_weight_g : Option ℚ := none
  portion_ml : Option ℚ := none
  portion_g : Option ℚ := none
  pkg_count : Option ℚ := none
deriving DecidableEq, Repr

/-! ## `services/cost.py` -/

/-- Is `nd` a contiguous substring of `hay` starting at its head?
(Worker for `subList`, i.e. Python's `in` on strings.) -/
def headSub : List Char → List Char → Bool
  | [], _ => true
  | _ :: _, [] => false
  | a :: as, b :: bs => a == b && headSub as bs

/-- Python's substring test `nd in hay` on strings (as char lists). -/
def subList (nd : List Char) : List Char → Bool
  | [] => headSub nd []
  | l@(_ :: rest) => headSub nd l || subList nd rest

/-- Function `_get_average_weight` from `services/cost.py`: exact uppercased key match
first, then the first table key (in insertion order) contained in the name. -/
def getAverageWeight (ingredient_name : String) : Option ℚ :=
  if ingredient_name = "" then none
  else
    let name_upper := strUpper ingredient_name
    match AVERAGE_WEIGHTS.lookup name_upper with
    | some w => some w
    | none =>
      (AVERAGE_WEIGHTS.find? fun kw => subList kw.1.toList name_upper.toList).map Prod.snd

/-- The `base_unit == 'G' / 'KG' / 'LB' / 'OZ'` rounding chain that appears
twice in the WEIGHT branch of `convert_to_base_unit`. -/
def gramsToWeightBase (grams : ℚ) (base : String) : Option ℚ :=
  if base = "G" then some (pyRound 2 grams)
  else if base = "KG" then some (pyRound 4 (grams / 1000))
  else if base = "LB" then some (pyRound 4 (grams / (453592/1000 : ℚ)))
  else if base = "OZ" then some (pyRound 2 (grams / (283495/10000 : ℚ)))
  else none

/-- The `base_unit == 'ML' / 'L' / 'CUP' / 'TBSP' / 'TSP'` rounding chain in the
VOLUME branch of `convert_to_base_unit`. -/
def mlToVolumeBase (ml : ℚ) (base : String) : Option ℚ :=
  if base = "ML" then some (pyRound 2 ml)
  else if base = "L" then some (pyRound 4 (ml / 1000))
  else if base = "CUP" then some (pyRound 4 (ml / (236588/1000 : ℚ)))
  else if base = "TBSP" then some (pyRound 2 (ml / (14787/1000 : ℚ)))
  else if base = "TSP" then some (pyRound 2 (ml / (4929/1000 : ℚ)))
  else none

/-- Function `convert_to_base_unit` from `services/cost.py`. -/
def convert_to_base_unit (qty : ℚ) (from_unit0 : Option String) (ingredient : Ingredient) : ℚ :=
  let formula := strUpper (pyOrS ingredient.cost_formula "COUNT")
  let base_unit := strUpper (pyOrS ingredient.base_unit "EA")
  let from_unit := strUpper (pyOrS from_unit0 "EA")
  if from_unit = base_unit ∧ formula ≠ "PACKAGE" then qty
  else if formula = "WEIGHT" then
    let direct : Option ℚ :=
      match WEIGHT_TO_G.lookup from_unit with
      | some f => if base_unit ∈ WEIGHT_UNITS then gramsToWeightBase (qty * f) base_unit else none
      | none => none
    match direct with
    | some r => r
    | none =>
      if (WEIGHT_TO_G.lookup from_unit).isNone ∧ (VOLUME_TO_ML.lookup from_unit).isNone then
        let piece_weight : Option ℚ :=
          if truthyQ ingredient.piece_weight_g then ingredient.piece_weight_g
          else getAverageWeight ingredient.name
        if truthyQ piece_weight ∧ base_unit ∈ WEIGHT_UNITS then
          (gramsToWeightBase (qty * piece_weight.getD 0) base_unit).getD qty
        else qty
      else qty
  else if formula = "VOLUME" then
    match VOLUME_TO_ML.lookup from_unit with
    | some f =>
      if base_unit ∈ VOLUME_UNITS then (mlToVolumeBase (qty * f) base_unit).getD qty else qty
    | none => qty
  else if formula = "PORTION" then
    let viaMl : Option ℚ :=
      match VOLUME_TO_ML.lookup from_unit with
      | some f =>
        if truthyQ ingredient.portion_ml then
          some (pyRound 4 (qty * f / ingredient.portion_ml.getD 0))
        else none
      | none => none
    match viaMl with
    | some r => r
    | none =>
      let viaG : Option ℚ :=
        match WEIGHT_TO_G.lookup from_unit with
        | some f =>
          if truthyQ ingredient.portion_g then
            some (pyRound 4 (qty * f / ingredient.portion_g.getD 0))
          else none
        | none => none
      match viaG with
      | some r => r
      | none => qty
  else if formula = "PACKAGE" then
    if truthyQ ingredient.pkg_count ∧ 0 < ingredient.pkg_count.getD 0 then
      if from_unit ∉ WEIGHT_UNITS ∧ from_unit ∉ VOLUME_UNITS then
        pyRound 4 (qty / ingredient.pkg_count.getD 0)
      else qty
    else qty
  else qty

/-! ## `services/matching.py` -/

/-- Function `convert_unit` from `services/matching.py`. -/
def convert_unit (quantity : ℚ) (from_unit0 to_unit0 : String) : ℚ × String :=
  let from_unit := strUpper from_unit0
  let to_unit := strUpper to_unit0
  if from_unit = to_unit then (quantity, to_unit)
  else
    match UNIT_CONVERSIONS.lookup from_unit, UNIT_CONVERSIONS.lookup to_unit with
    | some (from_base, from_factor), some (to_base, to_factor) =>
      if from_base ≠ to_base then (quantity, from_unit)
      else (pyRound 2 (quantity * from_factor / to_factor), to_unit)
    | _, _ => (quantity, from_unit)

/-! ## `services/parsing.py` -/

/-- The whitespace class of `parsing.py`'s normalizer, `[\s  -​]`
(Python `\s` on `str` is Unicode whitespace; `​` is added by the regex). -/
def isPyWs (c : Char) : Bool :=
  let n := c.toNat
  n = 32 || (9 ≤ n && n ≤ 13) || (28 ≤ n && n ≤ 31) || n = 133 || n = 160 ||
    n = 0x1680 || (0x2000 ≤ n && n ≤ 0x200b) || n = 0x2028 || n = 0x2029 ||
    n = 0x202f || n = 0x205f || n = 0x3000

/-- Worker for `collapseWs`. -/
def collapseWsAux : Bool → List Char → List Char
  | _, [] => []
  | inWs, c :: cs =>
    if isPyWs c then
      if inWs then collapseWsAux true cs else ' ' :: collapseWsAux true cs
    else c :: collapseWsAux false cs

/-- The whitespace-collapsing `re.sub` at the top of `normalize_fractions`:
every whitespace run becomes a single ASCII space (`collapseWsAux`'s flag
records being inside a run that already emitted its space). -/
def collapseWs (l : List Char) : List Char := collapseWsAux false l

/-- Python `str.strip()` (strip Unicode whitespace at both ends). -/
def pyStrip (l : List Char) : List Char :=
  ((l.dropWhile isPyWs).reverse.dropWhile isPyWs).reverse

/-- Table `UNICODE_FRACTIONS` from `constants/units.py`, in dict insertion order. -/
def UNICODE_FRACTIONS : List (Char × ℚ) :=
  [('½', 1/2), ('⅓', 1/3), ('⅔', 2/3), ('¼', 1/4), ('¾', 3/4),
   ('⅕', 1/5), ('⅖', 2/5), ('⅗', 3/5), ('⅘', 4/5), ('⅙', 1/6),
   ('⅚', 5/6), ('⅛', 1/8), ('⅜', 3/8), ('⅝', 5/8), ('⅞', 7/8)]

/-- Numeric value of a list of decimal digit characters (Python `float` applied
to a `\d+` regex group). -/
def natOfDigits (l : List Char) : ℕ :=
  l.foldl (fun n c => n * 10 + (c.toNat - 48)) 0

/-- Fractional decimal digits of `q` (`0 ≤ q < 1`), at most `fuel` of them. -/
def fracDigits : ℕ → ℚ → List Char
  | 0, _ => []
  | fuel + 1, q =>
    if q = 0 then []
    else
      let d := ⌊q * 10⌋
      Char.ofNat (48 + d.toNat) :: fracDigits fuel (q * 10 - d)

/-- Python `str(x)` for a nonnegative float, modelled on rationals: integer part,
point, then the decimal expansion.  Terminating expansions (all values this
development evaluates) match CPython exactly; non-terminating ones are cut at 16
digits, approximating CPython's shortest-roundtrip float repr. -/
def decStr (q : ℚ) : String :=
  let ip := Nat.toDigits 10 (⌊q⌋).toNat
  let fr := q - ⌊q⌋
  if fr = 0 then ⟨ip ++ ['.', '0']⟩
  else ⟨ip ++ '.' :: fracDigits 16 fr⟩

/-- Worker for `searchMixed`, a single left-to-right scan.  `pend` is the
candidate digit group currently open, with a flag telling whether whitespace
has been seen after it (`\d+` then `\s*`); a digit after such whitespace
starts a fresh candidate, and any other non-glyph character discards it. -/
def searchMixedAux (g : Char) : Option (List Char × Bool) → List Char → Option (List Char)
  | _, [] => none
  | pend, c :: cs =>
    if c.isDigit then
      match pend with
      | some (ds, false) => searchMixedAux g (some (ds ++ [c], false)) cs
      | _ => searchMixedAux g (some ([c], false)) cs
    else if isPyWs c then
      match pend with
      | some (ds, _) => searchMixedAux g (some (ds, true)) cs
      | none => searchMixedAux g none cs
    else if c = g then
      match pend with
      | some (ds, _) => some ds
      | none => searchMixedAux g none cs
    else searchMixedAux g none cs

/-- Model of `re.search(r'(\d+)\s*' + char, text)` for a fraction glyph `g`: the digit
group of the leftmost match, if any.  (Digit / whitespace / glyph are disjoint
classes, so backtracking never succeeds where maximal munch fails.) -/
def searchMixed (g : Char) (l : List Char) : Option (List Char) := searchMixedAux g none l

/-- Worker for `subAllMixed`, a single left-to-right scan.  `bufD`/`bufW` hold
the digits and following whitespace of the candidate match currently open; they
are flushed unchanged when the candidate fails, and dropped (replaced by
`repl`) when the glyph completes a match. -/
def subAllMixedAux (g : Char) (repl : List Char) : List Char → List Char → List Char → List Char
  | bufD, bufW, [] => bufD ++ bufW
  | bufD, bufW, c :: cs =>
    if c.isDigit then
      if bufW.isEmpty then subAllMixedAux g repl (bufD ++ [c]) [] cs
      else bufD ++ bufW ++ subAllMixedAux g repl [c] [] cs
    else if isPyWs c then
      if bufD.isEmpty then c :: subAllMixedAux g repl [] [] cs
      else subAllMixedAux g repl bufD (bufW ++ [c]) cs
    else if c = g then
      if bufD.isEmpty then c :: subAllMixedAux g repl [] [] cs
      else repl ++ subAllMixedAux g repl [] [] cs
    else bufD ++ bufW ++ c :: subAllMixedAux g repl [] [] cs

/-- Model of `re.sub(r'(\d+)\s*' + char, repl, text)` with the fixed replacement string
`repl`: replace every (leftmost, non-overlapping) digits-then-glyph match. -/
def subAllMixed (g : Char) (repl : List Char) (l : List Char) : List Char :=
  subAllMixedAux g repl [] [] l

/-- Python `text.replace(g, repl)` for a single character `g`. -/
def replChar (g : Char) (repl : List Char) : List Char → List Char
  | [] => []
  | c :: cs => if c = g then repl ++ replChar g repl cs else c :: replChar g repl cs

/-- One iteration of the glyph loop in `normalize_fractions`: if the glyph
occurs, a digit-preceded occurrence rewrites every digits-glyph match with the
first match's mixed-number value; otherwise the bare glyph is replaced by its
value. -/
def normalizeStep (text : List Char) (g : Char) (v : ℚ) : List Char :=
  if g ∈ text then
    match searchMixed g text with
    | some ds => subAllMixed g (decStr ((natOfDigits ds : ℚ) + v)).data text
    | none => replChar g (decStr v).data text
  else text

/-- Function `normalize_fractions` from `services/parsing.py` (list level). -/
def normFracs (l : List Char) : List Char :=
  UNICODE_FRACTIONS.foldl (fun t gv => normalizeStep t gv.1 gv.2) (collapseWs l)

/-- Function `normalize_fractions` from `services/parsing.py`. -/
def normalize_fractions (s : String) : String := ⟨normFracs s.data⟩


/-- Is `c` an ASCII letter (`[a-zA-Z]`)? -/
def isAsciiLetter (c : Char) : Bool :=
  (97 ≤ c.toNat && c.toNat ≤ 122) || (65 ≤ c.toNat && c.toNat ≤ 90)

/-- Python `float(s)` on a decimal literal (optional sign, digits with at most
one point, optional exponent), returning `none` for `ValueError`.  The
`inf`/`nan`/underscore forms, which no input considered here uses, are not
representable and also map to `none`. -/
def pyFloat? (l0 : List Char) : Option ℚ :=
  let l1 := pyStrip l0
  let sgn : ℚ := if l1.head? = some '-' then -1 else 1
  let l := if l1.head? = some '-' ∨ l1.head? = some '+' then l1.tail else l1
  let ip := l.takeWhile Char.isDigit
  let r1 := l.dropWhile Char.isDigit
  let mantissa? : Option (ℚ × List Char) :=
    match r1 with
    | '.' :: r2 =>
      let fp := r2.takeWhile Char.isDigit
      if ip.isEmpty ∧ fp.isEmpty then none
      else some ((natOfDigits ip : ℚ) + (natOfDigits fp : ℚ) / 10 ^ fp.length,
                 r2.dropWhile Char.isDigit)
    | _ => if ip.isEmpty then none else some ((natOfDigits ip : ℚ), r1)
  match mantissa? with
  | none => none
  | some (m, rest) =>
    match rest with
    | [] => some (sgn * m)
    | e :: r3 =>
      if e = 'e' ∨ e = 'E' then
        let esgn : Bool := r3.head? = some '-'
        let r4 := if r3.head? = some '-' ∨ r3.head? = some '+' then r3.tail else r3
        let ed := r4.takeWhile Char.isDigit
        if ed.isEmpty ∨ ¬ (r4.dropWhile Char.isDigit).isEmpty then none
        else some (sgn * (if esgn then m / 10 ^ natOfDigits ed else m * 10 ^ natOfDigits ed))
      else none

/-- Model of `re.match(r'^(\d+)\s+(\d+)\s*/\s*(\d+)$', s)`: a mixed fraction like
`1 1/2`, as its three digit groups. -/
def mixedMatch (l : List Char) : Option (ℕ × ℕ × ℕ) :=
  let d1 := l.takeWhile Char.isDigit
  let r1 := l.dropWhile Char.isDigit
  if d1.isEmpty then none
  else if (r1.takeWhile isPyWs).isEmpty then none
  else
    let r2 := r1.dropWhile isPyWs
    let d2 := r2.takeWhile Char.isDigit
    let r3 := r2.dropWhile Char.isDigit
    if d2.isEmpty then none
    else
      match r3.dropWhile isPyWs with
      | '/' :: r5 =>
        let r6 := r5.dropWhile isPyWs
        let d3 := r6.takeWhile Char.isDigit
        if d3.isEmpty ∨ ¬ (r6.dropWhile Char.isDigit).isEmpty then none
        else some (natOfDigits d1, natOfDigits d2, natOfDigits d3)
      | _ => none

/-- Model of `re.match(r'^(\d+)\s*/\s*(\d+)$', s)`: a simple fraction like `1/2`, as its
two digit groups. -/
def fracMatch (l : List Char) : Option (ℕ × ℕ) :=
  let d1 := l.takeWhile Char.isDigit
  let r1 := l.dropWhile Char.isDigit
  if d1.isEmpty then none
  else
    match r1.dropWhile isPyWs with
    | '/' :: r3 =>
      let r4 := r3.dropWhile isPyWs
      let d2 := r4.takeWhile Char.isDigit
      if d2.isEmpty ∨ ¬ (r4.dropWhile Char.isDigit).isEmpty then none
      else some (natOfDigits d1, natOfDigits d2)
    | _ => none

/-- Function `_parse_fraction_str` from `services/parsing.py`.  The divisions
`num / denom` are NOT guarded there: a zero denominator raises
`ZeroDivisionError` (modelled as `.error .zeroDivision`). -/
def parseFractionStr (s0 : String) : Except PyErr ℚ :=
  let s1 := pyStrip s0.data
  if s1.isEmpty then .ok 1
  else
    let s := normFracs s1
    match mixedMatch s with
    | some (w, n, d) =>
      if (d : ℚ) = 0 then .error .zeroDivision else .ok ((w : ℚ) + (n : ℚ) / (d : ℚ))
    | none =>
      match fracMatch s with
      | some (n, d) =>
        if (d : ℚ) = 0 then .error .zeroDivision else .ok ((n : ℚ) / (d : ℚ))
      | none =>
        match pyFloat? s with
        | some v => .ok v
        | none => .ok 1

/-- Worker for `splitWsL`: `cur` is the word currently being accumulated. -/
def splitWsAux : List Char → List Char → List (List Char)
  | cur, [] => if cur.isEmpty then [] else [cur]
  | cur, c :: cs =>
    if isPyWs c then
      if cur.isEmpty then splitWsAux [] cs else cur :: splitWsAux [] cs
    else splitWsAux (cur ++ [c]) cs

/-- Python `str.split()` (split on whitespace runs, discarding empties). -/
def splitWsL (l : List Char) : List (List Char) := splitWsAux [] l

/-- Python `str.split(sep)` for a one-character separator (keeps empties). -/
def splitOnChar (sep : Char) : List Char → List (List Char)
  | [] => [[]]
  | c :: cs =>
    if c = sep then [] :: splitOnChar sep cs
    else
      match splitOnChar sep cs with
      | [] => [[c]]
      | h :: t => (c :: h) :: t

/-- The `try: total += float(num)/float(den) except …` body of the slash case in
`parse_fraction`'s loop: `num, den = part.split('/')` (a bad unpack raises
`ValueError`), then float division (zero denominator raises
`ZeroDivisionError`). -/
def partFracValue (part : List Char) : Except PyErr ℚ :=
  match splitOnChar '/' part with
  | [num, den] =>
    match pyFloat? num, pyFloat? den with
    | some n, some d => if d = 0 then .error .zeroDivision else .ok (n / d)
    | _, _ => .error .valueError
  | _ => .error .valueError

/-- Function `parse_fraction` from `services/parsing.py`.  Every fallible operation in
its body sits inside a `try/except (ValueError, ZeroDivisionError)`, so the
whole function never propagates an error. -/
def parse_fraction (value : String) (default : ℚ := 1) (min_val : Option ℚ := none) :
    Except PyErr ℚ :=
  if value = "" then .ok default
  else
    let v := pyStrip value.data
    let total : ℚ :=
      match pyFloat? v with
      | some t => t
      | none =>
        (splitWsL v).foldl
          (fun total part =>
            if part.contains '/' then
              match partFracValue part with
              | .ok r => total + r
              | .error _ => total
            else
              match pyFloat? part with
              | some x => total + x
              | none => total)
          0
    let total := if total ≤ 0 then default else total
    match min_val with
    | some m => .ok (if total < m then m else total)
    | none => .ok total

/-- Table `NOTE_KEYWORDS` from `constants/ingredients.py` (a Python set; only
membership-via-substring is ever used, so order is irrelevant). -/
def NOTE_KEYWORDS : List String :=
  ["optional", "divided", "or more", "or less", "to taste",
   "for serving", "for garnish", "at room temp", "softened",
   "melted", "chopped", "diced", "minced", "sliced", "cubed",
   "sifted", "packed", "beaten", "room temperature", "thawed",
   "drained", "rinsed", "peeled", "seeded", "cored", "trimmed",
   "cut into", "plus more", "as needed", "torn", "shredded"]

/-- Table `UNIT_MAPPINGS` from `constants/units.py`. -/
def UNIT_MAPPINGS : List (String × String) :=
  [("pound", "LB"), ("pounds", "LB"), ("lb", "LB"), ("lbs", "LB"),
   ("ounce", "OZ"), ("ounces", "OZ"), ("oz", "OZ"),
   ("cup", "CUP"), ("cups", "CUP"), ("c", "CUP"),
   ("tablespoon", "TBSP"), ("tablespoons", "TBSP"), ("tbsp", "TBSP"), ("tbs", "TBSP"),
   ("tb", "TBSP"),
   ("teaspoon", "TSP"), ("teaspoons", "TSP"), ("tsp", "TSP"), ("ts", "TSP"),
   ("gram", "G"), ("grams", "G"), ("g", "G"),
   ("kilogram", "KG"), ("kilograms", "KG"), ("kg", "KG"),
   ("milliliter", "ML"), ("milliliters", "ML"), ("ml", "ML"),
   ("liter", "L"), ("liters", "L"), ("l", "L"),
   ("clove", "CLOVE"), ("cloves", "CLOVE"),
   ("head", "HEAD"), ("heads", "HEAD"),
   ("slice", "EA"), ("slices", "EA"),
   ("piece", "EA"), ("pieces", "EA"),
   ("can", "CAN"), ("cans", "CAN"),
   ("package", "EA"), ("packages", "EA"), ("pkg", "EA"),
   ("bunch", "EA"), ("bunches", "EA"),
   ("stalk", "EA"), ("stalks", "EA"),
   ("sprig", "EA"), ("sprigs", "EA"),
   ("pinch", "EA"), ("pinches", "EA"),
   ("dash", "EA"), ("dashes", "EA")]

/-- Worker for `subBrk`, a single left-to-right scan.  `wsBuf` is the pending
whitespace run (which the `\s*` of a following opening bracket would consume);
`inside` says we are inside a bracketed run being deleted (its `[^CLOSE]*`
content, up to an optional closing bracket). -/
def subBrkAux (o c : Char) : List Char → Bool → List Char → List Char
  | wsBuf, inside, [] => if inside then [] else wsBuf
  | wsBuf, inside, x :: xs =>
    if inside then
      if x = c then subBrkAux o c [] false xs
      else subBrkAux o c [] true xs
    else
      if isPyWs x then subBrkAux o c (wsBuf ++ [x]) false xs
      else if x = o then subBrkAux o c [] true xs
      else wsBuf ++ x :: subBrkAux o c [] false xs

/-- Model of `re.sub(r'\s*\(OPEN[^CLOSE]*CLOSE?', '', text)`: delete every bracketed run
(one bracket family per call). -/
def subBrk (o c : Char) (l : List Char) : List Char := subBrkAux o c [] false l

/-- One pass of the bracket-stripping loop in `parse_ingredient`: parentheses,
then square brackets, then curly braces. -/
def bracketPass (t : List Char) : List Char :=
  subBrk '\x7b' '\x7d' (subBrk '[' ']' (subBrk '(' ')' t))

/-- Model of `re.search(r',\s*(.*)$', text)`: split at the first comma, if any. -/
def splitFirst (sep : Char) : List Char → Option (List Char × List Char)
  | [] => none
  | c :: cs =>
    if c = sep then some ([], cs)
    else (splitFirst sep cs).map (fun p => (c :: p.1, p.2))

/-- The conditional comma-clause stripping in `parse_ingredient`: if the text
after the first comma (whitespace-stripped, lowercased) contains a note
keyword, truncate at that comma. -/
def commaStep (t : List Char) : List Char :=
  match splitFirst ',' t with
  | none => t
  | some (before, after) =>
    let ac := (after.dropWhile isPyWs).map Char.toLower
    if NOTE_KEYWORDS.any (fun kw => subList kw.data ac) then before else t

/-- Alternative 1 of the quantity regex, `\d+\s+\d+\s*/\s*\d+` (mixed
fraction); returns the remainder after the group. -/
def altMixed (l : List Char) : Option (List Char) :=
  let d1 := l.takeWhile Char.isDigit
  let r1 := l.dropWhile Char.isDigit
  if d1.isEmpty then none
  else if (r1.takeWhile isPyWs).isEmpty then none
  else
    let r2 := r1.dropWhile isPyWs
    let d2 := r2.takeWhile Char.isDigit
    let r3 := r2.dropWhile Char.isDigit
    if d2.isEmpty then none
    else
      match r3.dropWhile isPyWs with
      | '/' :: r5 =>
        let r6 := r5.dropWhile isPyWs
        if (r6.takeWhile Char.isDigit).isEmpty then none
        else some (r6.dropWhile Char.isDigit)
      | _ => none

/-- Alternative 2 of the quantity regex, `\d+\s*/\s*\d+` (simple fraction). -/
def altSimple (l : List Char) : Option (List Char) :=
  let d1 := l.takeWhile Char.isDigit
  let r1 := l.dropWhile Char.isDigit
  if d1.isEmpty then none
  else
    match r1.dropWhile isPyWs with
    | '/' :: r3 =>
      let r4 := r3.dropWhile isPyWs
      if (r4.takeWhile Char.isDigit).isEmpty then none
      else some (r4.dropWhile Char.isDigit)
    | _ => none

/-- Alternative 3 of the quantity regex, `\d+\.?\d*` (integer or decimal). -/
def altNum (l : List Char) : Option (List Char) :=
  let d1 := l.takeWhile Char.isDigit
  let r1 := l.dropWhile Char.isDigit
  if d1.isEmpty then none
  else
    match r1 with
    | '.' :: r2 => some (r2.dropWhile Char.isDigit)
    | _ => some r1

/-- Model of the quantity regex `^(\d+\s+\d+\s*/\s*\d+|\d+\s*/\s*\d+|\d+\.?\d*)\s*`:
the quantity group (tried in the regex's alternative order — the character
classes involved are disjoint, so greedy munching is complete) and the
`.strip()`ped text after the whole match. -/
def qtyMatch (l : List Char) : Option (List Char × List Char) :=
  match (altMixed l).orElse (fun _ => (altSimple l).orElse (fun _ => altNum l)) with
  | some rest => some (l.take (l.length - rest.length), pyStrip rest)
  | none => none

/-- Python `word.capitalize()`: first character uppercased, the rest
lowercased. -/
def capWord : List Char → List Char
  | [] => []
  | c :: cs => c.toUpper :: cs.map Char.toLower

/-- Python `' '.join(words)`. -/
def joinSpace (ws : List (List Char)) : List Char := List.intercalate [' '] ws

/-- The tail of `parse_ingredient` after the quantity has been extracted:
glyph scrubbing, leading fraction-debris removal, unit-token extraction, and
word-by-word capitalization of the remaining name. -/
def parseIngredientTail (q : ℚ) (t0 : List Char) : ℚ × String × String :=
  let t1 := UNICODE_FRACTIONS.foldl (fun t gv => replChar gv.1 [] t) t0
  let run := t1.takeWhile (fun ch => ch.isDigit || isPyWs ch || ch = '/')
  let rest := t1.dropWhile (fun ch => ch.isDigit || isPyWs ch || ch = '/')
  let t2 :=
    if run.isEmpty then t1
    else
      match rest.head? with
      | some r => if isAsciiLetter r then rest else t1
      | none => t1
  let t3 := pyStrip t2
  let (unit, t4) :=
    match splitWsL t3 with
    | [] => ("EA", t3)
    | w :: ws =>
      let fw := ((w.map Char.toLower).reverse.dropWhile (fun ch => ch = '.')).reverse
      match UNIT_MAPPINGS.lookup (⟨fw⟩ : String) with
      | some u => (u, joinSpace ws)
      | none => ("EA", t3)
  let name := joinSpace ((splitWsL (pyStrip t4)).map capWord)
  (q, unit, ⟨name⟩)

/-- Function `parse_ingredient` from `services/parsing.py`.  The quantity token is fed to
`_parse_fraction_str`, whose zero-denominator `ZeroDivisionError` propagates
out of `parse_ingredient` uncaught. -/
def parse_ingredient (s : String) : Except PyErr (Option (ℚ × String × String)) :=
  let t := pyStrip s.data
  if t.isEmpty then .ok none
  else
    let t := normFracs t
    let t := bracketPass (bracketPass (bracketPass t))
    let t := t.dropWhile (fun ch => ch = '/' || ch = '-' || isPyWs ch)
    let t := t.filter (fun ch => !(ch ∈ ['(', ')', '\x7b', '\x7d', '[', ']']))
    let t := commaStep t
    match qtyMatch t with
    | some (g, rest) =>
      match parseFractionStr ⟨g⟩ with
      | .error e => .error e
      | .ok q => .ok (some (parseIngredientTail q rest))
    | none => .ok (some (parseIngredientTail 1 t))


/-! ## `services/shopping.py` -/

/-- A `RecipeIngredient` row: quantity in the recipe's own unit, plus the
(possibly dangling) ingredient reference. -/
structure RecipeIngredient where
  ingredient_id : Nat := 0
  ingredient : Option Ingredient := none
  quantity : ℚ := 0
  unit : Option String := none
deriving DecidableEq, Repr

/-- A `Recipe` row with its ingredient lines. -/
structure Recipe where
  id : Nat := 0
  ingredients : List RecipeIngredient := []
deriving DecidableEq, Repr

/-- One value of the `consolidated` dict in `generate_shopping_list`. -/
structure ConsEntry where
  ingredient_id : Nat
  name : String
  qty : ℚ
  unit : String
  category : String
  cost_per_unit : ℚ
  min_purchase : ℚ
  is_use_up : Bool
deriving DecidableEq, Repr

/-- One record of the returned `shopping_items` list. -/
structure ShoppingItem where
  ingredient_id : Nat
  name : String
  qty : ℚ
  unit : String
  category : String
  unit_cost : String
  cost : ℚ
  is_use_up : Bool
deriving DecidableEq, Repr

/-- The `(items, subtotal, tax, total)` return tuple of
`generate_shopping_list`. -/
structure ShoppingResult where
  items : List ShoppingItem
  subtotal : ℚ
  tax : ℚ
  total : ℚ
deriving DecidableEq, Repr

/-- Model of `consolidated[ri.ingredient_id]['qty'] += base_qty` (the dict keeps
insertion order; only the matching entry's quantity changes). -/
def bumpQty (id : Nat) (dq : ℚ) : List ConsEntry → List ConsEntry
  | [] => []
  | e :: es =>
    if e.ingredient_id = id then { e with qty := e.qty + dq } :: es
    else e :: bumpQty id dq es

/-- Python `multipliers.get(recipe.id, 1.0)`. -/
def multGet (ms : List (Nat × ℚ)) (id : Nat) : ℚ :=
  match ms.lookup id with
  | some m => m
  | none => 1

/-- The body of the inner `for ri in recipe.ingredients` loop of
`generate_shopping_list`: skip dangling and pantry rows, convert to the
ingredient's base unit, and upsert into the consolidation dict. -/
def consolidateStep (pantry_ids use_up_ids : List Nat) (mult : ℚ)
    (acc : List ConsEntry) (ri : RecipeIngredient) : List ConsEntry :=
  match ri.ingredient with
  | none => acc
  | some ing =>
    if ri.ingredient_id ∈ pantry_ids then acc
    else
      let base_qty := convert_to_base_unit (ri.quantity * mult) ri.unit ing
      if acc.any (fun e => e.ingredient_id = ri.ingredient_id) then
        bumpQty ri.ingredient_id base_qty acc
      else
        acc ++ [{ ingredient_id := ri.ingredient_id, name := ing.name, qty := base_qty,
                  unit := pyOrS ing.base_unit "EA", category := ing.category,
                  cost_per_unit := ing.cost, min_purchase := pyOrQ ing.min_purchase 1,
                  is_use_up := ri.ingredient_id ∈ use_up_ids }]

/-- The consolidation loop of `generate_shopping_list`: for each selected
recipe id (unresolvable ids are skipped), scale by the recipe's multiplier and
accumulate per ingredient id. -/
def consolidate (recipe_ids : List Nat) (multipliers : List (Nat × ℚ))
    (recipes : List Recipe) (pantry_ids use_up_ids : List Nat) : List ConsEntry :=
  recipe_ids.foldl
    (fun acc rid =>
      match recipes.find? (fun r => r.id = rid) with
      | none => acc
      | some recipe =>
        recipe.ingredients.foldl
          (consolidateStep pantry_ids use_up_ids (multGet multipliers recipe.id)) acc)
    []

/-- Python `f"{q:.2f}"` (fixed two decimal places). -/
def fmt2 (q : ℚ) : String :=
  let n := round (q * 100)
  let a := n.natAbs
  let fp := if a % 100 < 10 then '0' :: Nat.toDigits 10 (a % 100) else Nat.toDigits 10 (a % 100)
  ⟨(if n < 0 then ['-'] else []) ++ Nat.toDigits 10 (a / 100) ++ '.' :: fp⟩

/-- The per-entry pricing step of `generate_shopping_list`: raise to the
minimum purchase, ceil `EA` quantities, and price at `cost_per_unit`. -/
def mkShoppingItem (it : ConsEntry) : ShoppingItem :=
  let qty := it.qty
  let qty := if qty < it.min_purchase then it.min_purchase else qty
  let qty := if it.unit = "EA" then ((⌈qty⌉ : ℤ) : ℚ) else qty
  { ingredient_id := it.ingredient_id, name := it.name, qty := pyRound 2 qty,
    unit := it.unit, category := it.category,
    unit_cost :=
      if 0 < it.cost_per_unit then "$" ++ fmt2 it.cost_per_unit ++ "/" ++ it.unit else "",
    cost := pyRound 2 (qty * it.cost_per_unit), is_use_up := it.is_use_up }

/-- The Python sort key `(category, name)`, as a boolean total preorder. -/
def itemLE (a b : ShoppingItem) : Bool :=
  decide (a.category < b.category) ||
    (decide (a.category = b.category) && decide (a.name ≤ b.name))

/-- Stable ascending insertion (the new element goes after every existing
element that is `≤` it). -/
def insSorted (a : ShoppingItem) : List ShoppingItem → List ShoppingItem
  | [] => [a]
  | b :: bs => if itemLE b a then b :: insSorted a bs else a :: b :: bs

/-- Model of `shopping_items.sort(key=lambda x: (x['category'], x['name']))`: Python's
sort is stable, and a stable ascending sort of a total preorder is unique, so
insertion sort models it exactly. -/
def sortItems (l : List ShoppingItem) : List ShoppingItem :=
  l.foldl (fun acc x => insSorted x acc) []

/-- The exclusion set of `generate_shopping_list`: ingredient ids of pantry
staples with `have_it=True`, plus the id of the ingredient named `water` when
one exists. -/
def pantrySet (pantryHaveIds : List Nat) (waterId : Option Nat) : List Nat :=
  pantryHaveIds ++ (match waterId with | some i => [i] | none => [])

/-- Function `generate_shopping_list` from `services/shopping.py`.  The ORM queries are
abstracted to a read-only snapshot: the recipe table, the ingredient ids of
pantry staples with `have_it=True`, the id of the ingredient named `water` (if
any), and the use-up ingredient ids. -/
def generate_shopping_list (recipe_ids : List Nat) (multipliers : List (Nat × ℚ))
    (recipes : List Recipe) (pantryHaveIds : List Nat) (waterId : Option Nat)
    (useUpIds : List Nat) : ShoppingResult :=
  let entries := consolidate recipe_ids multipliers recipes
    (pantrySet pantryHaveIds waterId) useUpIds
  let shopping_items := sortItems (entries.map mkShoppingItem)
  let subtotal := (shopping_items.map ShoppingItem.cost).sum
  let tax := subtotal * (12/100)
  { items := shopping_items, subtotal := pyRound 2 subtotal, tax := pyRound 2 tax,
    total := pyRound 2 (subtotal + tax) }

/-! ## General lemmas -/

theorem pyRound_err (n : ℕ) (x : ℚ) : |pyRound n x - x| ≤ 1 / (2 * 10 ^ n) := by
  unfold pyRound
  have h10 : (0:ℚ) < 10 ^ n := by positivity
  have : (round (x * 10 ^ n) : ℚ) / 10 ^ n - x = ((round (x * 10 ^ n) : ℚ) - x * 10 ^ n) / 10 ^ n := by
    field_simp
    ring
  rw [this, abs_div, abs_of_pos h10]
  rw [div_le_div_iff h10 (by positivity)]
  have hb := abs_sub_round (x * 10 ^ n)
  rw [abs_sub_comm] at hb
  calc |(round (x * 10 ^ n) : ℚ) - x * 10 ^ n| * (2 * 10 ^ n)
      ≤ (1 / 2) * (2 * 10 ^ n) := by
        apply mul_le_mul_of_nonneg_right hb; positivity
    _ = 1 * 10 ^ n := by ring

theorem pyRound_mono (n : ℕ) {x y : ℚ} (h : x ≤ y) : pyRound n x ≤ pyRound n y := by
  unfold pyRound
  have h10 : (0:ℚ) < 10 ^ n := by positivity
  have : round (x * 10 ^ n) ≤ round (y * 10 ^ n) := by
    rw [round_eq, round_eq]
    exact Int.floor_le_floor (by nlinarith)
  have h' : ((round (x * 10 ^ n) : ℤ) : ℚ) ≤ ((round (y * 10 ^ n) : ℤ) : ℚ) := by exact_mod_cast this
  exact (div_le_div_iff_of_pos_right h10).mpr h' 

theorem pyRound_intCast_div (n : ℕ) (k : ℤ) :
    pyRound n ((k : ℚ) / 10 ^ n) = (k : ℚ) / 10 ^ n := by
  unfold pyRound
  rw [div_mul_cancel₀ _ (by positivity : (10:ℚ) ^ n ≠ 0), round_intCast]

theorem pyRound_one (n : ℕ) : pyRound n 1 = 1 := by
  unfold pyRound
  rw [one_mul, show ((10:ℚ) ^ n) = ((10 ^ n : ℤ) : ℚ) by push_cast; ring, round_intCast]
  rw [div_self (by positivity : ((10 ^ n : ℤ) : ℚ) ≠ 0)]

theorem roundtrip_bound (q fu fv : ℚ) (h0 : 0 < fv) (h1 : fv ≤ fu) :
    |pyRound 2 (pyRound 2 (q * fu / fv) * fv / fu) - q| ≤ 1 / 100 := by
  have hfu : 0 < fu := lt_of_lt_of_le h0 h1
  have e1 : |pyRound 2 (q * fu / fv) - q * fu / fv| ≤ 1 / 200 := by
    have := pyRound_err 2 (q * fu / fv); norm_num at this ⊢; linarith
  have e2 : |pyRound 2 (pyRound 2 (q * fu / fv) * fv / fu) - pyRound 2 (q * fu / fv) * fv / fu|
      ≤ 1 / 200 := by
    have := pyRound_err 2 (pyRound 2 (q * fu / fv) * fv / fu); norm_num at this ⊢; linarith
  set q1 := pyRound 2 (q * fu / fv) with hq1
  set q2 := pyRound 2 (q1 * fv / fu) with hq2
  have hr : fv / fu ≤ 1 := by rw [div_le_one hfu]; exact h1
  have hrpos : 0 < fv / fu := by positivity
  have key : q1 * fv / fu - q = (q1 - q * fu / fv) * (fv / fu) := by
    field_simp
    ring
  have t4 : |q1 * fv / fu - q| ≤ 1 / 200 := by
    rw [key, abs_mul, abs_of_pos hrpos]
    calc |q1 - q * fu / fv| * (fv / fu) ≤ (1 / 200) * 1 := by
          apply mul_le_mul e1 hr (le_of_lt hrpos) (by norm_num)
      _ = 1 / 200 := by norm_num
  have split : q2 - q = (q2 - q1 * fv / fu) + (q1 * fv / fu - q) := by ring
  rw [split]
  calc |(q2 - q1 * fv / fu) + (q1 * fv / fu - q)|
      ≤ |q2 - q1 * fv / fu| + |q1 * fv / fu - q| := abs_add _ _
    _ ≤ 1 / 200 + 1 / 200 := add_le_add e2 t4
    _ = 1 / 100 := by norm_num

/-- The family base recorded for a unit token in `UNIT_CONVERSIONS`
(`ML` for the volume family, `G` for the weight family). -/
def unitBase (s : String) : Option String := (UNIT_CONVERSIONS.lookup s).map Prod.fst

/-- The conversion factor recorded for a unit token in `UNIT_CONVERSIONS`
(0 for a token outside the table). -/
def unitFactor (s : String) : ℚ := ((UNIT_CONVERSIONS.lookup s).map Prod.snd).getD 0

theorem convert_unit_self (q : ℚ) (u : String) : convert_unit q u u = (q, strUpper u) := by
  unfold convert_unit
  rw [if_pos rfl]

theorem convert_unit_conv (q : ℚ) (u v b : String) (fu fv : ℚ)
    (hne : strUpper u ≠ strUpper v)
    (hu : UNIT_CONVERSIONS.lookup (strUpper u) = some (b, fu))
    (hv : UNIT_CONVERSIONS.lookup (strUpper v) = some (b, fv)) :
    convert_unit q u v = (pyRound 2 (q * fu / fv), strUpper v) := by
  unfold convert_unit
  rw [if_neg hne]
  rw [hu, hv]
  exact if_neg (fun h => h rfl)

/-! ## Claim C7 -/

/-- C7: for every quantity `q` and unit tokens `u`, `v` — if either token
(after the case-normalization `convert_unit` performs on entry) is unknown to
`UNIT_CONVERSIONS`, or the two tokens belong to different unit families (e.g.
weight versus volume), then `convert_unit` is a total no-op: it returns the
original quantity together with the (case-normalized) from-unit, and never
throws.  In particular every VOLUME/WEIGHT cross-family request fails closed
this way. -/
theorem convert_unit_fail_closed (q : ℚ) (u v : String)
    (h : unitBase (strUpper u) = none ∨ unitBase (strUpper v) = none ∨
        unitBase (strUpper u) ≠ unitBase (strUpper v)) :
    convert_unit q u v = (q, strUpper u) := by
  by_cases heq : strUpper u = strUpper v
  · unfold convert_unit
    rw [if_pos heq, heq]
  · unfold convert_unit
    rw [if_neg heq]
    unfold unitBase at h
    rcases hlu : UNIT_CONVERSIONS.lookup (strUpper u) with _ | ⟨b1, f1⟩ <;>
      rcases hlv : UNIT_CONVERSIONS.lookup (strUpper v) with _ | ⟨b2, f2⟩
    · rfl
    · rfl
    · rfl
    · rw [hlu, hlv] at h
      have hb : b1 ≠ b2 := by
        rcases h with h | h | h
        · simp at h
        · simp at h
        · simpa using h
      show (if b1 ≠ b2 then (q, strUpper u)
            else (pyRound 2 (q * f1 / f2), strUpper v)) = (q, strUpper u)
      rw [if_pos hb]

theorem convert_unit_fail_closed_witness : convert_unit 5 "LB" "ML" = (5, "LB") := by
  have h := convert_unit_fail_closed 5 "LB" "ML" (Or.inr (Or.inr (by decide)))
  rw [h]
  decide

/-! ## Claim C6 -/

/-- C6 counterexample: the weight-family round trip G → LB → G at quantity 1
returns 0 (the 2-decimal rounding of `1/453.592` is 0), which is NOT within
0.01 of the original quantity — refuting the claim for arbitrary pairs. -/
theorem weight_roundtrip_counterexample :
    (convert_unit (convert_unit 1 "G" "LB").1 "LB" "G").1 = 0 ∧
    ¬ (|(convert_unit (convert_unit 1 "G" "LB").1 "LB" "G").1 - 1| ≤ 1 / 100) := by
  refine ⟨by decide, ?_⟩
  have h : (convert_unit (convert_unit 1 "G" "LB").1 "LB" "G").1 = 0 := by decide
  rw [h]
  norm_num

theorem roundtrip_self (q : ℚ) (u : String) :
    |(convert_unit (convert_unit q u u).1 u u).1 - q| ≤ 1 / 100 := by
  rw [convert_unit_self]
  show |(convert_unit q u u).1 - q| ≤ 1 / 100
  rw [convert_unit_self]
  show |q - q| ≤ 1 / 100
  norm_num

theorem roundtrip_units (q : ℚ) (u v b : String) (fu fv : ℚ)
    (hne : strUpper u ≠ strUpper v)
    (hu : UNIT_CONVERSIONS.lookup (strUpper u) = some (b, fu))
    (hv : UNIT_CONVERSIONS.lookup (strUpper v) = some (b, fv))
    (h0 : 0 < fv) (h1 : fv ≤ fu) :
    |(convert_unit (convert_unit q u v).1 v u).1 - q| ≤ 1 / 100 := by
  rw [convert_unit_conv q u v b fu fv hne hu hv]
  show |(convert_unit (pyRound 2 (q * fu / fv)) v u).1 - q| ≤ 1 / 100
  rw [convert_unit_conv _ v u b fv fu (Ne.symm hne) hv hu]
  show |pyRound 2 (pyRound 2 (q * fu / fv) * fv / fu) - q| ≤ 1 / 100
  exact roundtrip_bound q fu fv h0 h1

/-- C6 amended: within the WEIGHT family the convert/inverse-convert round trip
stays within 0.01 of the original quantity PROVIDED the first conversion goes
to a unit that is at least as fine (its table factor does not exceed the
from-unit's); converting to a coarser unit first can lose up to
`0.005 * (factor ratio)`, far more than 0.01 (see the counterexample). -/
theorem weight_roundtrip_within_tolerance (q : ℚ) (u v : String)
    (hu : u ∈ WEIGHT_UNITS) (hv : v ∈ WEIGHT_UNITS)
    (hf : unitFactor v ≤ unitFactor u) :
    |(convert_unit (convert_unit q u v).1 v u).1 - q| ≤ 1 / 100 := by
  simp only [WEIGHT_UNITS] at hu hv
  fin_cases hu <;> fin_cases hv
  · exact roundtrip_self q "G"
  · exact absurd hf (by decide)
  · exact absurd hf (by decide)
  · exact absurd hf (by decide)
  · exact roundtrip_units q "KG" "G" "G" 1000 1 (by decide) (by decide) (by decide)
      (by norm_num) (by norm_num)
  · exact roundtrip_self q "KG"
  · exact roundtrip_units q "KG" "OZ" "G" 1000 (283495/10000) (by decide) (by decide)
      (by decide) (by norm_num) (by norm_num)
  · exact roundtrip_units q "KG" "LB" "G" 1000 (453592/1000) (by decide) (by decide)
      (by decide) (by norm_num) (by norm_num)
  · exact roundtrip_units q "OZ" "G" "G" (283495/10000) 1 (by decide) (by decide) (by decide)
      (by norm_num) (by norm_num)
  · exact absurd hf (by decide)
  · exact roundtrip_self q "OZ"
  · exact absurd hf (by decide)
  · exact roundtrip_units q "LB" "G" "G" (453592/1000) 1 (by decide) (by decide) (by decide)
      (by norm_num) (by norm_num)
  · exact absurd hf (by decide)
  · exact roundtrip_units q "LB" "OZ" "G" (453592/1000) (283495/10000) (by decide) (by decide)
      (by decide) (by norm_num) (by norm_num)
  · exact roundtrip_self q "LB"

theorem weight_roundtrip_within_tolerance_witness :
    |(convert_unit (convert_unit (37/10) "KG" "G").1 "G" "KG").1 - 37/10| ≤ 1 / 100 :=
  weight_roundtrip_within_tolerance (37/10) "KG" "G" (by decide) (by decide) (by decide)

/-! ## Claim C1 -/

/-- C1: for every quantity and every ingredient whose `cost_formula` is
`PACKAGE` with `pkg_count` set and positive, whenever the (normalized)
from-unit is a count unit — neither a weight nor a volume unit —
`convert_to_base_unit` returns the quantity divided by `pkg_count`, rounded to
4 decimal places.  No hypothesis relates the from-unit to `base_unit`: the
divide happens even when both are literally `EA`, because the generic
units-match short-circuit explicitly excludes the PACKAGE formula. -/
theorem package_divides_by_pkg_count (q : ℚ) (fu : Option String) (i : Ingredient) (pc : ℚ)
    (hf : i.cost_formula = some "PACKAGE")
    (hpc : i.pkg_count = some pc) (hpos : 0 < pc)
    (hw : strUpper (pyOrS fu "EA") ∉ WEIGHT_UNITS)
    (hv : strUpper (pyOrS fu "EA") ∉ VOLUME_UNITS) :
    convert_to_base_unit q fu i = pyRound 4 (q / pc) := by
  simp only [convert_to_base_unit, hf, hpc]
  rw [if_neg (fun h => h.2 (by decide))]
  rw [if_neg (by decide : ¬ strUpper (pyOrS (some "PACKAGE") "COUNT") = "WEIGHT")]
  rw [if_neg (by decide : ¬ strUpper (pyOrS (some "PACKAGE") "COUNT") = "VOLUME")]
  rw [if_neg (by decide : ¬ strUpper (pyOrS (some "PACKAGE") "COUNT") = "PORTION")]
  rw [if_pos (by decide : strUpper (pyOrS (some "PACKAGE") "COUNT") = "PACKAGE")]
  rw [if_pos ⟨by simp [truthyQ]; exact hpos.ne', by simpa using hpos⟩]
  rw [if_pos ⟨hw, hv⟩]
  simp

theorem package_divides_by_pkg_count_witness :
    convert_to_base_unit 2 (some "EA")
        { cost_formula := some "PACKAGE", base_unit := some "EA", pkg_count := some 12 } =
      1667/10000 ∧ (1667/10000 : ℚ) ≠ 2 := by
  constructor
  · have h := package_divides_by_pkg_count 2 (some "EA")
      { cost_formula := some "PACKAGE", base_unit := some "EA", pkg_count := some 12 } 12
      rfl rfl (by norm_num) (by decide) (by decide)
    rw [h]
    decide
  · decide

/-! ## Claim C5 -/

theorem weight_units_lookup_isSome (s : String) (hs : s ∈ WEIGHT_UNITS) :
    (WEIGHT_TO_G.lookup s).isSome = true := by
  simp only [WEIGHT_UNITS] at hs
  fin_cases hs <;> decide

/-- C5: for an ingredient with `cost_formula = WEIGHT` whose `base_unit` is a
weight unit, when the (normalized) from-unit is a count unit (in neither
conversion table), `convert_to_base_unit` multiplies the quantity by a piece
weight in grams — `piece_weight_g` when set (truthy), otherwise the built-in
average-weight table looked up by name — and converts the grams to `base_unit`
with the formula-specific rounding (`gramsToWeightBase`); when no piece weight
is resolvable, the quantity is returned unchanged. -/
theorem weight_formula_piece_weight (q : ℚ) (fu : Option String) (i : Ingredient)
    (hf : i.cost_formula = some "WEIGHT")
    (hbu : strUpper (pyOrS i.base_unit "EA") ∈ WEIGHT_UNITS)
    (hw : WEIGHT_TO_G.lookup (strUpper (pyOrS fu "EA")) = none)
    (hv : VOLUME_TO_ML.lookup (strUpper (pyOrS fu "EA")) = none) :
    (∀ w : ℚ,
        (if truthyQ i.piece_weight_g then i.piece_weight_g else getAverageWeight i.name) =
          some w →
        w ≠ 0 →
        convert_to_base_unit q fu i =
          (gramsToWeightBase (q * w) (strUpper (pyOrS i.base_unit "EA"))).getD q) ∧
    (truthyQ (if truthyQ i.piece_weight_g then i.piece_weight_g
              else getAverageWeight i.name) = false →
        convert_to_base_unit q fu i = q) := by
  have hne : strUpper (pyOrS fu "EA") ≠ strUpper (pyOrS i.base_unit "EA") := by
    intro hc
    have := weight_units_lookup_isSome _ hbu
    rw [← hc, hw] at this
    simp at this
  have hstep : convert_to_base_unit q fu i =
      (if truthyQ (if truthyQ i.piece_weight_g then i.piece_weight_g
                   else getAverageWeight i.name) ∧
          strUpper (pyOrS i.base_unit "EA") ∈ WEIGHT_UNITS then
        (gramsToWeightBase
            (q * (if truthyQ i.piece_weight_g then i.piece_weight_g
                  else getAverageWeight i.name).getD 0)
            (strUpper (pyOrS i.base_unit "EA"))).getD q
      else q) := by
    simp only [convert_to_base_unit, hf]
    rw [if_neg (fun h => hne h.1)]
    rw [if_pos (by decide : strUpper (pyOrS (some "WEIGHT") "COUNT") = "WEIGHT")]
    rw [hw]
    rw [if_pos (by rw [hv]; exact ⟨rfl, rfl⟩)]
  constructor
  · intro w hwres hw0
    rw [hstep, hwres]
    rw [if_pos ⟨by simp [truthyQ]; exact hw0, hbu⟩]
    simp
  · intro hfalse
    rw [hstep, if_neg (fun h => by rw [hfalse] at h; exact absurd h.1 (by simp))]

theorem weight_formula_piece_weight_witness :
    convert_to_base_unit 2 (some "EA")
        { cost_formula := some "WEIGHT", base_unit := some "KG", piece_weight_g := some 225 } =
      45/100 := by
  have h := (weight_formula_piece_weight 2 (some "EA")
      { cost_formula := some "WEIGHT", base_unit := some "KG", piece_weight_g := some 225 }
      rfl (by decide) (by decide) (by decide)).1 225 (by decide) (by norm_num)
  rw [h]
  decide

/-! ## Claim C2 -/

/-- C2 (the code contradicts the claimed safety): `parse_fraction` really does
swallow every division-by-zero and malformed-fraction error and always returns
a value — every fallible operation in it is wrapped in `try/except` — but
`parse_ingredient` does NOT: its quantity path goes through
`_parse_fraction_str`, whose `num / denom` is unguarded, so the input
`"1/0 cups flour"` raises `ZeroDivisionError` instead of returning a triple
with quantity 1.0. -/
theorem parse_ingredient_zero_denominator_raises :
    parse_ingredient "1/0 cups flour" = .error PyErr.zeroDivision ∧
    parseFractionStr "1/0" = .error PyErr.zeroDivision ∧
    (∀ (v : String) (d : ℚ) (m : Option ℚ), ∃ t : ℚ, parse_fraction v d m = .ok t) := by
  refine ⟨by decide, by decide, ?_⟩
  intro v d m
  unfold parse_fraction
  by_cases hv : v = ""
  · rw [if_pos hv]; exact ⟨d, rfl⟩
  · rw [if_neg hv]
    cases m with
    | some mv => exact ⟨_, rfl⟩
    | none => exact ⟨_, rfl⟩

/-! ## Claim C4 -/

/-- C4 counterexample: on `"1 1/2 cups all-purpose flour, sifted"` the parser
does return quantity 1.5 and unit `CUP` with the `sifted` comma-clause
dropped, but the name is `"All-purpose Flour"` — `str.capitalize` lowercases
the rest of each whitespace-delimited word and the hyphen is kept — not the
claimed `"All Purpose Flour"`. -/
theorem parse_scenario_counterexample :
    parse_ingredient "1 1/2 cups all-purpose flour, sifted" =
      .ok (some (3/2, "CUP", "All-purpose Flour")) ∧
    ("All-purpose Flour" : String) ≠ "All Purpose Flour" := by
  exact ⟨by decide, by decide⟩

/-- C4 amended: `"1 1/2 cups all-purpose flour, sifted"` parses to quantity
1.5, unit `CUP`, and name `"All-purpose Flour"` (the comma-clause `sifted`
dropped as a note keyword). -/
theorem parse_scenario_amended :
    parse_ingredient "1 1/2 cups all-purpose flour, sifted" =
      .ok (some (3/2, "CUP", "All-purpose Flour")) := by
  decide

/-! ## Claim C9 -/

/-- C9 counterexample: `re.sub` is called with the replacement STRING computed
from the FIRST match, so in a text containing both `1½` and `2½` the second
occurrence is also replaced by `1.5` — the result is `"1.5 and 1.5"`, not the
claimed `"1.5 and 2.5"`. -/
theorem normalize_fractions_counterexample :
    normalize_fractions "1½ and 2½" = "1.5 and 1.5" ∧
    ("1.5 and 1.5" : String) ≠ "1.5 and 2.5" := by
  exact ⟨by decide, by decide⟩

/-- C9 amended: for each glyph, when at least one occurrence is digit-preceded,
EVERY digit-preceded occurrence is replaced by the decimal string computed from
the FIRST such occurrence's preceding number, while occurrences not preceded by
a digit are left untouched; only when no occurrence of the glyph is
digit-preceded is each occurrence replaced by the glyph's own decimal value. -/
theorem normalize_fractions_amended :
    normalize_fractions "1½ and 2½" = "1.5 and 1.5" ∧
    normalize_fractions "1½ and ½" = "1.5 and ½" ∧
    normalize_fractions "½ and ¼" = "0.5 and 0.25" ∧
    normalize_fractions "2½" = "2.5" := by
  exact ⟨by decide, by decide, by decide, by decide⟩

/-! ## Shopping-list lemmas -/

theorem mem_insSorted (a x : ShoppingItem) (l : List ShoppingItem) :
    a ∈ insSorted x l ↔ a = x ∨ a ∈ l := by
  induction l with
  | nil => simp [insSorted]
  | cons b bs ih =>
    unfold insSorted
    by_cases h : itemLE b x
    · rw [if_pos h]
      simp only [List.mem_cons, ih]
      tauto
    · rw [if_neg h]
      simp only [List.mem_cons]

theorem mem_sortItems (a : ShoppingItem) (l : List ShoppingItem) :
    a ∈ sortItems l ↔ a ∈ l := by
  have key : ∀ (m acc : List ShoppingItem),
      (a ∈ m.foldl (fun acc x => insSorted x acc) acc ↔ a ∈ acc ∨ a ∈ m) := by
    intro m
    induction m with
    | nil => intro acc; simp
    | cons x xs ih =>
      intro acc
      simp only [List.foldl_cons]
      rw [ih (insSorted x acc)]
      simp only [mem_insSorted, List.mem_cons]
      tauto
  unfold sortItems
  rw [key l []]
  simp

theorem if_lt_min_eq_max (a b : ℚ) : (if a < b then b else a) = max a b := by
  rcases le_or_lt b a with h | h
  · rw [if_neg (not_lt.mpr h), max_eq_left h]
  · rw [if_pos h, max_eq_right h.le]

theorem is2dp_pyRound2 (y : ℚ) : ∃ k : ℤ, pyRound 2 y = (k : ℚ) / 100 :=
  ⟨round (y * 10 ^ 2), by unfold pyRound; norm_num⟩

theorem sum_is2dp (L : List ℚ) (h : ∀ x ∈ L, ∃ k : ℤ, x = (k : ℚ) / 100) :
    ∃ k : ℤ, L.sum = (k : ℚ) / 100 := by
  induction L with
  | nil => exact ⟨0, by simp⟩
  | cons a as ih =>
    rcases h a (by simp) with ⟨ka, hka⟩
    rcases ih (fun x hx => h x (by simp [hx])) with ⟨ks, hks⟩
    refine ⟨ka + ks, ?_⟩
    rw [List.sum_cons, hka, hks]
    push_cast
    ring

theorem pyRound2_of_2dp (x : ℚ) (k : ℤ) (h : x = (k : ℚ) / 100) : pyRound 2 x = x := by
  subst h
  have := pyRound_intCast_div 2 k
  norm_num at this ⊢
  exact this

theorem total_combine (k : ℤ) :
    pyRound 2 ((k : ℚ) / 100 + (k : ℚ) / 100 * (12 / 100)) =
      pyRound 2 ((k : ℚ) / 100 + pyRound 2 ((k : ℚ) / 100 * (12 / 100))) := by
  unfold pyRound
  have e1 : ((k : ℚ) / 100 + (k : ℚ) / 100 * (12 / 100)) * 10 ^ 2 =
      ((12 * k : ℤ) : ℚ) / 100 + (k : ℚ) := by push_cast; ring
  have e2 : ((k : ℚ) / 100 * (12 / 100)) * 10 ^ 2 = ((12 * k : ℤ) : ℚ) / 100 := by
    push_cast; ring
  rw [e1, e2, round_add_int]
  have e3 : ((k : ℚ) / 100 + ((round (((12 * k : ℤ) : ℚ) / 100) : ℤ) : ℚ) / 10 ^ 2) * 10 ^ 2 =
      ((k + round (((12 * k : ℤ) : ℚ) / 100) : ℤ) : ℚ) := by
    push_cast
    ring
  rw [e3, round_intCast]
  push_cast
  ring

/-! ## Claim C3 -/

/-- C3: every item of every generated shopping list comes from an aggregated
entry by the pricing step, and that step (a) raises a below-minimum total to
exactly the minimum and never lowers it (`max qty min_purchase`), (b) for the
`EA` base unit then rounds the quantity up to the next whole number, and
(c) prices the line as the so-rounded quantity times the per-base-unit cost,
rounded to 2 decimal places. -/
theorem shopping_item_min_ceiling_cost (recipe_ids : List Nat)
    (multipliers : List (Nat × ℚ)) (recipes : List Recipe) (pantryHaveIds : List Nat)
    (waterId : Option Nat) (useUpIds : List Nat) (it : ShoppingItem)
    (hit : it ∈ (generate_shopping_list recipe_ids multipliers recipes pantryHaveIds
        waterId useUpIds).items) :
    ∃ e ∈ consolidate recipe_ids multipliers recipes (pantrySet pantryHaveIds waterId)
        useUpIds,
      it = mkShoppingItem e ∧
      (e.unit ≠ "EA" →
          it.qty = pyRound 2 (max e.qty e.min_purchase) ∧
          it.cost = pyRound 2 (max e.qty e.min_purchase * e.cost_per_unit)) ∧
      (e.unit = "EA" →
          it.qty = pyRound 2 ((⌈max e.qty e.min_purchase⌉ : ℤ) : ℚ) ∧
          it.cost = pyRound 2 (((⌈max e.qty e.min_purchase⌉ : ℤ) : ℚ) * e.cost_per_unit)) := by
  simp only [generate_shopping_list] at hit
  rw [mem_sortItems] at hit
  rcases List.mem_map.mp hit with ⟨e, he, hmk⟩
  refine ⟨e, he, hmk.symm, ?_, ?_⟩
  · intro hunit
    rw [← hmk]
    show (mkShoppingItem e).qty = _ ∧ (mkShoppingItem e).cost = _
    simp only [mkShoppingItem, if_lt_min_eq_max, if_neg hunit]
    exact ⟨by trivial, by trivial⟩
  · intro hunit
    rw [← hmk]
    show (mkShoppingItem e).qty = _ ∧ (mkShoppingItem e).cost = _
    simp only [mkShoppingItem, if_lt_min_eq_max, if_pos hunit]
    exact ⟨by trivial, by trivial⟩

/-- An ingredient priced per each, 2.1 of which are requested across the
selected recipes. -/
def eggIng : Ingredient :=
  { id := 1, name := "Eggs", category := "Dairy", cost_formula := some "COUNT",
    base_unit := some "EA", cost := 2 }

def eggRecipe : Recipe :=
  { id := 1, ingredients :=
      [{ ingredient_id := 1, ingredient := some eggIng, quantity := 21/10,
         unit := some "EA" }] }

/-- The single line the egg fixture produces: 2.1 EA aggregates to exactly
3 EA (ceiling), priced `3 * $2 = $6`. -/
def eggItem : ShoppingItem :=
  { ingredient_id := 1, name := "Eggs", qty := 3, unit := "EA", category := "Dairy",
    unit_cost := "$2.00/EA", cost := 6, is_use_up := false }

theorem shopping_item_min_ceiling_cost_witness :
    ∃ e ∈ consolidate [1] [] [eggRecipe] (pantrySet [] none) [],
      eggItem = mkShoppingItem e ∧
      (e.unit ≠ "EA" →
          eggItem.qty = pyRound 2 (max e.qty e.min_purchase) ∧
          eggItem.cost = pyRound 2 (max e.qty e.min_purchase * e.cost_per_unit)) ∧
      (e.unit = "EA" →
          eggItem.qty = pyRound 2 ((⌈max e.qty e.min_purchase⌉ : ℤ) : ℚ) ∧
          eggItem.cost = pyRound 2 (((⌈max e.qty e.min_purchase⌉ : ℤ) : ℚ) * e.cost_per_unit)) :=
  shopping_item_min_ceiling_cost [1] [] [eggRecipe] [] none [] eggItem (by decide)

/-! ## Claim C8 -/

/-- C8: in every generated shopping list the returned subtotal is the sum of
the line costs rounded to 2 decimal places, the returned tax is 12% of that
subtotal rounded to 2 decimal places, and the returned total is subtotal plus
tax rounded to 2 decimal places.  (Line costs are already 2-decimal values, so
the code's use of the unrounded running sum coincides with these readings.) -/
theorem shopping_totals (recipe_ids : List Nat) (multipliers : List (Nat × ℚ))
    (recipes : List Recipe) (pantryHaveIds : List Nat) (waterId : Option Nat)
    (useUpIds : List Nat) :
    (generate_shopping_list recipe_ids multipliers recipes pantryHaveIds waterId
        useUpIds).subtotal =
      pyRound 2 (((generate_shopping_list recipe_ids multipliers recipes pantryHaveIds
          waterId useUpIds).items.map ShoppingItem.cost).sum) ∧
    (generate_shopping_list recipe_ids multipliers recipes pantryHaveIds waterId
        useUpIds).tax =
      pyRound 2 ((generate_shopping_list recipe_ids multipliers recipes pantryHaveIds
          waterId useUpIds).subtotal * (12/100)) ∧
    (generate_shopping_list recipe_ids multipliers recipes pantryHaveIds waterId
        useUpIds).total =
      pyRound 2 ((generate_shopping_list recipe_ids multipliers recipes pantryHaveIds
          waterId useUpIds).subtotal +
        (generate_shopping_list recipe_ids multipliers recipes pantryHaveIds waterId
          useUpIds).tax) := by
  set L := sortItems ((consolidate recipe_ids multipliers recipes
      (pantrySet pantryHaveIds waterId) useUpIds).map mkShoppingItem) with hL
  have hall : ∀ x ∈ L.map ShoppingItem.cost, ∃ k : ℤ, x = (k : ℚ) / 100 := by
    intro x hx
    rcases List.mem_map.mp hx with ⟨itx, hitL, hxc⟩
    rw [hL, mem_sortItems] at hitL
    rcases List.mem_map.mp hitL with ⟨e, _, hmk⟩
    rw [← hxc, ← hmk]
    exact is2dp_pyRound2 _
  rcases sum_is2dp _ hall with ⟨k, hk⟩
  have hsub : (generate_shopping_list recipe_ids multipliers recipes pantryHaveIds waterId
      useUpIds).subtotal = (L.map ShoppingItem.cost).sum := by
    show pyRound 2 ((L.map ShoppingItem.cost).sum) = (L.map ShoppingItem.cost).sum
    exact pyRound2_of_2dp _ k hk
  refine ⟨?_, ?_, ?_⟩
  · rfl
  · show pyRound 2 ((L.map ShoppingItem.cost).sum * (12/100)) = _
    rw [hsub]
  · show pyRound 2 ((L.map ShoppingItem.cost).sum +
        (L.map ShoppingItem.cost).sum * (12/100)) = _
    rw [hsub]
    show _ = pyRound 2 ((L.map ShoppingItem.cost).sum +
        pyRound 2 ((L.map ShoppingItem.cost).sum * (12/100)))
    rw [hk]
    exact total_combine k

/-! ## Claim C10 -/

/-- An ingredient with a configured minimum purchase below one base unit. -/
def farroIng : Ingredient :=
  { id := 2, name := "Farro", category := "Grains", cost_formula := some "COUNT",
    base_unit := some "G", cost := 1, min_purchase := some (1/2) }

def farroRecipe : Recipe :=
  { id := 2, ingredients :=
      [{ ingredient_id := 2, ingredient := some farroIng, quantity := 7/10,
         unit := some "G" }] }

/-- C10 counterexample: an ingredient with `min_purchase = 0.5` and an
aggregated quantity of 0.7 G yields a shopping-list quantity of 0.7 — below
1.0 — so it is NOT the case that every item of every generated list has
quantity at least 1.0. -/
theorem shopping_min_purchase_counterexample :
    ((generate_shopping_list [2] [] [farroRecipe] [] none []).items.map
        ShoppingItem.qty) = [7/10] ∧
    ¬ (1 ≤ (7/10 : ℚ)) := ⟨by decide, by decide⟩

/-- C10 amended: the consolidation step stores `min_purchase or 1.0`, so an
ingredient whose `min_purchase` is unset (`None`) or 0 is treated as having a
minimum purchase of 1.0 base unit; consequently every item whose aggregation
entry carries a minimum of at least 1 — in particular every item for an
ingredient with no configured minimum — has quantity at least 1.0.  (An
ingredient with a configured positive minimum below 1 can still produce a
smaller quantity, as the counterexample shows.) -/
theorem shopping_min_default_quantity_ge_one (recipe_ids : List Nat)
    (multipliers : List (Nat × ℚ)) (recipes : List Recipe) (pantryHaveIds : List Nat)
    (waterId : Option Nat) (useUpIds : List Nat) (it : ShoppingItem)
    (hit : it ∈ (generate_shopping_list recipe_ids multipliers recipes pantryHaveIds
        waterId useUpIds).items) :
    (∀ i : Ingredient, (i.min_purchase = none ∨ i.min_purchase = some 0) →
        pyOrQ i.min_purchase 1 = 1) ∧
    ∃ e ∈ consolidate recipe_ids multipliers recipes (pantrySet pantryHaveIds waterId)
        useUpIds,
      it = mkShoppingItem e ∧ (1 ≤ e.min_purchase → 1 ≤ it.qty) := by
  constructor
  · intro i hi
    rcases hi with h | h <;> rw [h] <;> decide
  · simp only [generate_shopping_list] at hit
    rw [mem_sortItems] at hit
    rcases List.mem_map.mp hit with ⟨e, he, hmk⟩
    refine ⟨e, he, hmk.symm, ?_⟩
    intro hmin
    rw [← hmk]
    show 1 ≤ (mkShoppingItem e).qty
    have h1 : (1 : ℚ) ≤ (if e.qty < e.min_purchase then e.min_purchase else e.qty) := by
      rw [if_lt_min_eq_max]
      exact le_trans hmin (le_max_right _ _)
    have h2 : (1 : ℚ) ≤
        (if e.unit = "EA" then
          ((⌈if e.qty < e.min_purchase then e.min_purchase else e.qty⌉ : ℤ) : ℚ)
        else if e.qty < e.min_purchase then e.min_purchase else e.qty) := by
      split
      · exact le_trans h1 (Int.le_ceil _)
      · exact h1
    calc (1 : ℚ) = pyRound 2 1 := (pyRound_one 2).symm
      _ ≤ (mkShoppingItem e).qty := pyRound_mono 2 h2

/-- An each-priced ingredient with no configured minimum purchase and a small
aggregated quantity. -/
def limeIng : Ingredient :=
  { id := 3, name := "Lime", category := "Produce", cost_formula := some "COUNT",
    base_unit := some "EA", cost := 1/2 }

def limeRecipe : Recipe :=
  { id := 3, ingredients :=
      [{ ingredient_id := 3, ingredient := some limeIng, quantity := 3/10,
         unit := some "EA" }] }

/-- The single line the lime fixture produces: 0.3 EA with no configured
minimum is raised to the default minimum 1.0. -/
def limeItem : ShoppingItem :=
  { ingredient_id := 3, name := "Lime", qty := 1, unit := "EA", category := "Produce",
    unit_cost := "$0.50/EA", cost := 1/2, is_use_up := false }

theorem shopping_min_default_quantity_ge_one_witness :
    (∀ i : Ingredient, (i.min_purchase = none ∨ i.min_purchase = some 0) →
        pyOrQ i.min_purchase 1 = 1) ∧
    ∃ e ∈ consolidate [3] [] [limeRecipe] (pantrySet [] none) [],
      limeItem = mkShoppingItem e ∧ (1 ≤ e.min_purchase → 1 ≤ limeItem.qty) :=
  shopping_min_default_quantity_ge_one [3] [] [limeRecipe] [] none [] limeItem (by decide)
